import Mathlib

/-!
Shallow embedding of the pywikiai repository (src/check_P1433.py and
src/harvest_pap1.py): hierarchical title resolution for the P1433
("published in") property and claim/qualifier reconciliation.

Page titles are strings; a page's hierarchy is its title split on "/",
exactly as both scripts compute `page.title().split("/")`.  External
collaborators (page store, knowledge-base store, template parameters
extracted by regex from page text) are modelled as finite association
lists carried in a `Site` value; the scripts' interactive `input()` /
`confirm()` answers are passed in as arguments.
-/

/-- Python exceptions that the modelled code can raise. -/
inductive PyErr
  | unboundLocal
  | indexError
  | attrError
  deriving Repr, DecidableEq

/-- A P1433 claim: its target (`some qid` when `getTarget()` is an
`ItemPage` with that id, `none` for a non-item value) and its qualifier
list as (qualifier property id, qualifier target id) pairs. -/
structure Claim where
  target : Option String
  qualifiers : List (String × String)
  deriving Repr, DecidableEq

/-- A knowledge-base item: its id and its ordered list of P1433 claims
(`item.claims["P1433"]`, the empty list when the key is absent). -/
structure Item where
  id : String
  p1433 : List Claim
  deriving Repr, DecidableEq

/-- Python `claim.qualifiers.get(prop, [])` projected to target ids. -/
def qualifiersGet (qs : List (String × String)) (prop : String) : List String :=
  (qs.filter (fun q => q.1 == prop)).map (fun q => q.2)

/-- Python truthiness of an optional string: `None` and `""` are falsy. -/
def pyTruthy : Option String → Bool
  | none => false
  | some s => s != ""

/-- Python `title.split("/")` for the single-character separator "/", on the
character list. -/
def splitSlashAux : List Char → List Char → List (List Char)
  | [], acc => [acc.reverse]
  | c :: cs, acc =>
    if c = '/' then acc.reverse :: splitSlashAux cs []
    else splitSlashAux cs (c :: acc)

/-- Python `title.split("/")`. -/
def splitSlash (s : String) : List String :=
  (splitSlashAux s.toList []).map (fun l => String.mk l)

/-- Python `"/".join(parts)`. -/
def joinSlash : List String → String
  | [] => ""
  | [s] => s
  | s :: rest => s ++ "/" ++ joinSlash rest

/-- Python `needle in haystack` on character lists (substring test). -/
def subListOf (needle : List Char) : List Char → Bool
  | [] => needle.isEmpty
  | c :: cs => needle.isPrefixOf (c :: cs) || subListOf needle cs

/-- Python `s.startswith(p)`. -/
def strStartsWith (s p : String) : Bool :=
  p.toList.isPrefixOf s.toList

/-- Python `s.lower()`. -/
def strLower (s : String) : String :=
  String.mk (s.toList.map Char.toLower)

/-- Python `s.strip()`. -/
def pyStrip (s : String) : String :=
  String.mk (((s.toList.dropWhile Char.isWhitespace).reverse.dropWhile
    Char.isWhitespace).reverse)

/-- Python `x or y` for an optional string `x` and default `y`
(falsy strings fall through to the default). -/
def pyOrStr (a : Option String) (b : String) : String :=
  match a with
  | some s => if s = "" then b else s
  | none => b

/-- Python `list(set(...))`: the distinct elements of a list (Python's set
iteration order is unspecified; only cardinality and the unique element
of a singleton are ever used by the source). -/
def uniqueIds : List String → List String
  | [] => []
  | x :: xs => if (uniqueIds xs).contains x then uniqueIds xs else x :: uniqueIds xs

namespace CheckP1433

/-- The external world seen by check_P1433.py: which pages exist, which
redirect where, which page has which knowledge-base item
(`ItemPage.fromPage` succeeding), the template parameters that
`get_param`'s regex extracts from each page's text, and the namespace-0
page enumeration used by the similar-title fallback search. -/
structure Site where
  pages : List String
  redirects : List (String × String)
  items : List (String × Item)
  params : List ((String × String) × String)
  allpages : List String
  deriving Repr

/-- Source `page.exists()`. -/
def Site.exists_ (s : Site) (t : String) : Bool :=
  s.pages.contains t

/-- Source `page.isRedirectPage()`. -/
def Site.isRedirect (s : Site) (t : String) : Bool :=
  (s.redirects.lookup t).isSome

/-- Source `page.getRedirectTarget().title()`. -/
def Site.redirectTarget (s : Site) (t : String) : String :=
  (s.redirects.lookup t).getD t

/-- Source `get_item_for_page` / `ItemPage.fromPage` wrapped in try/except:
the page's knowledge-base item, or `none` when the lookup fails. -/
def get_item_for_page (s : Site) (t : String) : Option Item :=
  s.items.lookup t

/-- Source `get_param(page, name)`: models the regex extraction
`\|\s*name\s*=\s*([^|{}]+)` of a NavigacePaP parameter from the page's
text; the extracted, stripped parameter values are carried in the site
state. -/
def get_param (s : Site) (page name : String) : Option String :=
  s.params.lookup (page, name)

/-- Source `get_publication_item(item)`: the target of the first P1433 claim,
when it is an item. -/
def get_publication_item (item : Item) : Option String :=
  match item.p1433 with
  | [] => none
  | c :: _ => c.target

/-- The loop body of `guess_base_title` over the reversed candidate
list (nearest parent first): skip non-existing candidates, resolve
redirects, remember the last existing candidate as `best_existing`,
and return the first candidate whose page has a knowledge-base item.
Result: (early-return value, final `best_existing`). -/
def gbt_loop (s : Site) : List String → Option String → Option String × Option String
  | [], best => (none, best)
  | c :: rest, best =>
    if !(s.exists_ c) then gbt_loop s rest best
    else
      let cand_page := if s.isRedirect c then s.redirectTarget c else c
      match get_item_for_page s cand_page with
      | some _ => (some cand_page, some cand_page)
      | none => gbt_loop s rest (some cand_page)

/-- Source `guess_base_title(page, title_param)`: determines the base title of
the containing work from the factual page hierarchy.  The `title_param`
argument (the TITUL value) is accepted but — exactly as in the source,
whose docstring says "Ignoruje parametr TITUL" — never used.  A
single-segment title is returned as is; otherwise the proper prefixes
`"/".join(parts[:i])` for `i in range(1, len(parts))` are walked in
reverse (nearest parent first) and the first one whose page exists and
has an item is returned; failing that, the highest existing one;
failing that, `parts[0]`. -/
def guess_base_title (s : Site) (title : String)
    (title_param : Option String := none) : String :=
  let _ := title_param
  let parts := splitSlash title
  if parts.length == 1 then parts.headD ""
  else
    let candidates := (List.range' 1 (parts.length - 1)).map
      (fun i => joinSlash (parts.take i))
    match gbt_loop s candidates.reverse none with
    | (some r, _) => r
    | (none, best) => pyOrStr best (parts.headD "")

/-- A mutation of the knowledge-base store issued by check_P1433.py. -/
inductive Mutation
  | addClaim (target summary : String)
  | changeTarget (target summary : String)
  deriving Repr, DecidableEq

/-- The observable outcome of `process_page` (mirroring its prints). -/
inductive Outcome
  | noItem
  | noAncestor
  | foundNoTitle (page item : String)
  | noAncestorItem
  | multiStageFound (page item : String)
  | fallbackChosen (page item : String)
  | fallbackNoItem
  | fallbackSkipped
  | fallbackNone
  | missingAdd (item : String)
  | matches (item : String)
  | mismatch (current expected : String)
  deriving Repr, DecidableEq

/-- The effects of one `process_page` call: the knowledge-base
mutations issued, the number of `confirm()` prompts shown, the printed
outcome, and the returned `all_yes` flag. -/
structure ProcResult where
  mutations : List Mutation
  confirms : Nat
  outcome : Outcome
  allYes : Bool
  deriving Repr, DecidableEq

/-- The loop of the no-TITUL branch of `process_page` (lines 120-141):
walk the estimated ancestor titles nearest-parent-first; on the first
existing candidate whose (redirect-resolved) page has an item, ask for
confirmation (unless `all_yes`) and add a P1433 claim with that item. -/
def notitle_loop (s : Site) (ans : String) (all_yes : Bool) :
    List String → ProcResult
  | [] => ⟨[], 0, .noAncestorItem, all_yes⟩
  | cand :: rest =>
    if !(s.exists_ cand) then notitle_loop s ans all_yes rest
    else
      let cand_page := if s.isRedirect cand then s.redirectTarget cand else cand
      match get_item_for_page s cand_page with
      | none => notitle_loop s ans all_yes rest
      | some cand_item =>
        let a := if all_yes then "y" else ans
        let conf := if all_yes then 0 else 1
        if a == "y" || a == "a" then
          ⟨[.addClaim cand_item.id "Doplněno publikováno v (odhad hierarchie bez TITUL)"],
            conf, .foundNoTitle cand_page cand_item.id, all_yes || (a == "a")⟩
        else
          ⟨[], conf, .foundNoTitle cand_page cand_item.id, all_yes⟩

/-- The similar-title fallback of `process_page` (lines 180-210): scan
namespace-0 pages for at most 5 non-subpage titles containing the
queried title case-insensitively, let the user pick one by number, and
after confirmation add a P1433 claim with the chosen page's item. -/
def fallback_search (s : Site) (base_title : String) (ans choice : String)
    (all_yes : Bool) : ProcResult :=
  let search_title := strLower base_title
  let alt_candidates :=
    (s.allpages.filter (fun p =>
      subListOf search_title.toList (strLower p).toList
        && !(p.toList.contains '/'))).take 5
  if alt_candidates.isEmpty then ⟨[], 0, .fallbackNone, all_yes⟩
  else
    let idx :=
      if !choice.toList.isEmpty && choice.toList.all Char.isDigit then
        some (choice.toList.foldl (fun acc c => acc * 10 + (c.toNat - 48)) 0)
      else none
    match idx with
    | some n =>
      if 1 ≤ n && n ≤ alt_candidates.length then
        let chosen := alt_candidates.getD (n - 1) ""
        match get_item_for_page s chosen with
        | some expected_item =>
          let a := if all_yes then "y" else ans
          let conf := if all_yes then 0 else 1
          if a == "y" || a == "a" then
            ⟨[.addClaim expected_item.id "Oprava publikováno v (NavigacePaP, nalezeno podobné dílo)"],
              conf, .fallbackChosen chosen expected_item.id, all_yes || (a == "a")⟩
          else
            ⟨[], conf, .fallbackChosen chosen expected_item.id, all_yes⟩
        | none => ⟨[], 0, .fallbackNoItem, all_yes⟩
      else ⟨[], 0, .fallbackSkipped, all_yes⟩
    | none => ⟨[], 0, .fallbackSkipped, all_yes⟩

/-- Source `process_page(page, repo, all_yes)` of check_P1433.py.  `ans` is the
answer the user would give to a `confirm()` prompt ("y"/"n"/"a"),
`choice` the raw input to the fallback's numbered-candidate prompt.
The multi-stage branch faithfully reproduces the source's line
`if current_item and current_item.id == cand_item.id:`: `cand_item` is
an unbound local there (the defined name is `candidate_item`), so any
page item that already carries a P1433 item target makes that branch
raise, modelled as `.error .unboundLocal`. -/
def process_page (s : Site) (title : String) (ans choice : String)
    (all_yes : Bool) : Except PyErr ProcResult :=
  match get_item_for_page s title with
  | none => .ok ⟨[], 0, .noItem, all_yes⟩
  | some item =>
    let title_param := get_param s title "TITUL"
    if !(pyTruthy title_param) then
      let parts := splitSlash title
      if parts.length ≤ 1 then .ok ⟨[], 0, .noAncestor, all_yes⟩
      else
        let candidates := ((List.range' 1 (parts.length - 1)).reverse).map
          (fun i => joinSlash (parts.take i))
        .ok (notitle_loop s ans all_yes candidates)
    else
      let base_title := guess_base_title s title title_param
      match get_item_for_page s base_title with
      | none =>
        let parts := splitSlash title
        if parts.length > 2 then
          let parentPath := joinSlash parts.dropLast
          if !(strStartsWith base_title parentPath) then
            let candidate_full := parentPath ++ "/" ++ base_title
            match get_item_for_page s candidate_full with
            | some candidate_item =>
              match get_publication_item item with
              | some _ => .error .unboundLocal
              | none =>
                let a := if all_yes then "y" else ans
                let conf := if all_yes then 0 else 1
                if a == "y" || a == "a" then
                  .ok ⟨[.addClaim candidate_item.id "Oprava publikováno v (NavigacePaP, odhad vícestupňového názvu)"],
                    conf, .multiStageFound candidate_full candidate_item.id,
                    all_yes || (a == "a")⟩
                else
                  .ok ⟨[], conf, .multiStageFound candidate_full candidate_item.id, all_yes⟩
            | none => .ok (fallback_search s base_title ans choice all_yes)
          else .ok (fallback_search s base_title ans choice all_yes)
        else .ok (fallback_search s base_title ans choice all_yes)
      | some expected_item =>
        match get_publication_item item with
        | none =>
          let a := if all_yes then "y" else ans
          let conf := if all_yes then 0 else 1
          if a == "y" || a == "a" then
            .ok ⟨[.addClaim expected_item.id "Doplněno publikováno v (NavigacePaP)"],
              conf, .missingAdd expected_item.id, all_yes || (a == "a")⟩
          else
            .ok ⟨[], conf, .missingAdd expected_item.id, all_yes⟩
        | some current_item =>
          if current_item == expected_item.id then
            .ok ⟨[], 0, .matches current_item, all_yes⟩
          else
            let a := if all_yes then "y" else ans
            let conf := if all_yes then 0 else 1
            if a == "y" || a == "a" then
              .ok ⟨[.changeTarget expected_item.id "Oprava publikováno v (NavigacePaP)"],
                conf, .mismatch current_item expected_item.id,
                all_yes || (a == "a")⟩
            else
              .ok ⟨[], conf, .mismatch current_item expected_item.id, all_yes⟩

/-- Formalisation helper: the test applied by the no-TITUL walk to one
estimated ancestor title — `none` when the page does not exist or its
redirect-resolved page has no knowledge-base item, otherwise the
resolved page title and its item id. -/
def cand_has_item (s : Site) (c : String) : Option (String × String) :=
  if !(s.exists_ c) then none
  else
    let cand_page := if s.isRedirect c then s.redirectTarget c else c
    match get_item_for_page s cand_page with
    | some it => some (cand_page, it.id)
    | none => none

end CheckP1433

namespace HarvestPap1

/-- The external world seen by harvest_pap1.py: which page has which
knowledge-base item, and the NavigacePaP template parameters that
`get_param_from_template`'s regex extracts from each page's text. -/
structure Site where
  items : List (String × Item)
  params : List ((String × String) × String)
  deriving Repr

/-- Source `get_item_for_page(site, title)`: the page's knowledge-base item,
or `none` when `ItemPage.fromPage` fails. -/
def get_item_for_page (s : Site) (t : String) : Option Item :=
  s.items.lookup t

/-- Source `get_param_from_template(page, param)`: models the regex extraction
of a NavigacePaP parameter value from the page's text; the extracted,
stripped values are carried in the site state. -/
def get_param_from_template (s : Site) (page param : String) : Option String :=
  s.params.lookup (page, param)

/-- Source `get_p1433_claims(item)`: Python `item.claims.get("P1433", [])`. -/
def get_p1433_claims (item : Item) : List Claim :=
  item.p1433

/-- Source `has_qualifiers(claim, qualifiers=("P155","P156"))`: whether the
claim carries a non-empty qualifier list for any of the given
properties. -/
def has_qualifiers (c : Claim) (qs : List String := ["P155", "P156"]) : Bool :=
  qs.any (fun q => !(qualifiersGet c.qualifiers q).isEmpty)

/-- A mutation of the knowledge-base store issued by harvest_pap1.py. -/
inductive HMutation
  | removeClaim (c : Claim)
  | addQualifier (prop target : String)
  deriving Repr, DecidableEq

/-- Source `add_statement_with_qualifier(repo, item, prop, target_item,
journal_claim)`: returns the qualifier mutation it issues, or `none`
when it returns without editing (missing argument, or the claim already
carries a qualifier of property `prop` with the same target). -/
def add_statement_with_qualifier (prop : String) (target_item : Option String)
    (journal_claim : Option Claim) : Option HMutation :=
  match target_item, journal_claim with
  | some t, some jc =>
    if (qualifiersGet jc.qualifiers prop).contains t then none
    else some (.addQualifier prop t)
  | _, _ => none

/-- The effects of one `cleanup_p1433_duplicates` call: the claims it
removes, the distinct-target escalation reports it prints (each one the
list of target ids it enumerates), whether it opened the item in a
browser, the number of `input()` prompts it issued, the value of the
`always_yes` global after the call, and the claim it returns. -/
structure CleanupResult where
  removed : List Claim
  escalations : List (List String)
  opened : Bool
  prompts : Nat
  alwaysYes : Bool
  survivor : Option Claim
  deriving Repr, DecidableEq

/-- Source `cleanup_p1433_duplicates(repo, item, claims)`.  `ansOpen` answers
the "open in browser?" prompt of the distinct-target branch, `ansRemove`
the "[y/n/a]" removal prompt of the duplicate branch (which sets the
`always_yes` global on "a"); `always_yes` is that global's value before
the call.  Crashes of the source (indexing an empty unique-target list,
`.id` on a non-item target) are modelled as errors. -/
def cleanup_p1433_duplicates (claims : List Claim) (ansOpen ansRemove : String)
    (always_yes : Bool) : Except PyErr CleanupResult :=
  let targets := claims.map (fun c => c.target)
  let unique_targets := uniqueIds (targets.filterMap (fun t => t))
  if 1 < unique_targets.length then
    if targets.contains none then .error .attrError
    else .ok ⟨[], [targets.filterMap (fun t => t)], ansOpen == "y", 1, always_yes, none⟩
  else
    match unique_targets with
    | [] => .error .indexError
    | target_qid :: _ =>
      let no_qual := claims.filter (fun c => !(has_qualifiers c))
      let prompted := decide (1 < claims.length) && !no_qual.isEmpty
      let removed :=
        if prompted && (ansRemove == "y" || ansRemove == "a") then no_qual else []
      let ay := always_yes || (prompted && ansRemove == "a")
      if targets.contains none then .error .attrError
      else
        match claims.filter (fun c => c.target == some target_qid) with
        | [] => .error .indexError
        | surv :: _ =>
          .ok ⟨removed, [], false, if prompted then 1 else 0, ay, some surv⟩

/-- The effects of one harvest_pap1.py `process_page` call. -/
structure HProcResult where
  mutations : List HMutation
  escalations : List (List String)
  opened : Bool
  prompts : Nat
  alwaysYes : Bool
  deriving Repr, DecidableEq

/-- Source `process_page(page, repo)` of harvest_pap1.py: skip pages without an
item, without PŘEDCHOZÍ/DALŠÍ parameters or without P1433 claims;
resolve duplicate P1433 claims via `cleanup_p1433_duplicates`; skip
claims already carrying P155/P156 qualifiers; then resolve the previous
and next sibling pages against the parent path and attach the missing
qualifiers. -/
def process_page (s : Site) (title : String) (ansOpen ansRemove : String)
    (always_yes : Bool) : Except PyErr HProcResult :=
  match get_item_for_page s title with
  | none => .ok ⟨[], [], false, 0, always_yes⟩
  | some item =>
    let prev_title := get_param_from_template s title "PŘEDCHOZÍ"
    let next_title := get_param_from_template s title "DALŠÍ"
    if !(pyTruthy prev_title || pyTruthy next_title) then
      .ok ⟨[], [], false, 0, always_yes⟩
    else
      let claims := get_p1433_claims item
      if claims.isEmpty then .ok ⟨[], [], false, 0, always_yes⟩
      else
        match cleanup_p1433_duplicates claims ansOpen ansRemove always_yes with
        | .error e => .error e
        | .ok cr =>
          match cr.survivor with
          | none =>
            .ok ⟨cr.removed.map .removeClaim, cr.escalations, cr.opened,
              cr.prompts, cr.alwaysYes⟩
          | some journal_claim =>
            if has_qualifiers journal_claim then
              .ok ⟨cr.removed.map .removeClaim, cr.escalations, cr.opened,
                cr.prompts, cr.alwaysYes⟩
            else
              let parts := splitSlash title
              let muts1 :=
                if pyTruthy prev_title then
                  let prev_full :=
                    joinSlash (parts.dropLast ++ [pyStrip (prev_title.getD "")])
                  match get_item_for_page s prev_full with
                  | none => []
                  | some prev_item =>
                    (add_statement_with_qualifier "P155" (some prev_item.id)
                      (some journal_claim)).toList
                else []
              let muts2 :=
                if pyTruthy next_title then
                  let next_full :=
                    joinSlash (parts.dropLast ++ [pyStrip (next_title.getD "")])
                  match get_item_for_page s next_full with
                  | none => []
                  | some next_item =>
                    (add_statement_with_qualifier "P156" (some next_item.id)
                      (some journal_claim)).toList
                else []
              .ok ⟨cr.removed.map .removeClaim ++ muts1 ++ muts2,
                cr.escalations, cr.opened, cr.prompts, cr.alwaysYes⟩

/-- The `main` loop of harvest_pap1.py over a stream of pages, threading
the `always_yes` global (initialised to `False`, written only by
`cleanup_p1433_duplicates`).  Each stream element is a page title with
the user's answers to the two possible prompts; an uncaught exception
aborts the whole run, as `main` has no try/except around
`process_page`. -/
def harvest_run (s : Site) :
    List (String × String × String) → Bool →
      List (Except PyErr HProcResult) × Bool
  | [], ay => ([], ay)
  | (t, aO, aR) :: rest, ay =>
    match process_page s t aO aR ay with
    | .error e => ([.error e], ay)
    | .ok r =>
      let (rs, fin) := harvest_run s rest r.alwaysYes
      (.ok r :: rs, fin)

end HarvestPap1

/-! ### Concrete worlds used to settle the claims -/

/-- A world where page "A/B" declares TITUL = "X", the page "X" of the
declared title has item QX, and the ancestor "A" has item QA. -/
def siteC1 : CheckP1433.Site :=
  { pages := ["A/B", "A", "X"]
    redirects := []
    items := [("A/B", ⟨"QAB", []⟩), ("A", ⟨"QA", []⟩), ("X", ⟨"QX", []⟩)]
    params := [(("A/B", "TITUL"), "X")]
    allpages := [] }

/-- A world after a first corrective run: page "A/B" has no TITUL, its
item QP already carries P1433 = QA, and the ancestor "A" has item QA. -/
def siteC3 : CheckP1433.Site :=
  { pages := ["A/B", "A"]
    redirects := []
    items := [("A/B", ⟨"QP", [⟨some "QA", []⟩]⟩), ("A", ⟨"QA", []⟩)]
    params := []
    allpages := [] }

/-- A world for the multi-stage title guess: page "A/B/C" declares a
TITUL, its item QP already carries P1433 = Q9, the hierarchy guess "A"
has no item, and the synthesized candidate "A/B/A" resolves to the very
same target item Q9. -/
def siteC6 : CheckP1433.Site :=
  { pages := ["A/B/C", "A"]
    redirects := []
    items := [("A/B/C", ⟨"QP", [⟨some "Q9", []⟩]⟩), ("A/B/A", ⟨"Q9", []⟩)]
    params := [(("A/B/C", "TITUL"), "T")]
    allpages := [] }

/-- A world with a single-segment page "A" that declares a TITUL and
has its own item QA. -/
def siteC10 : CheckP1433.Site :=
  { pages := ["A"]
    redirects := []
    items := [("A", ⟨"QA", []⟩)]
    params := [(("A", "TITUL"), "X")]
    allpages := [] }

/-- A harvest world with two pages whose items each carry two
unqualified P1433 claims with the same target Q1. -/
def siteC8 : HarvestPap1.Site :=
  { items := [("P1", ⟨"I1", [⟨some "Q1", []⟩, ⟨some "Q1", []⟩]⟩),
              ("P2", ⟨"I2", [⟨some "Q1", []⟩, ⟨some "Q1", []⟩]⟩)]
    params := [(("P1", "PŘEDCHOZÍ"), "x"), (("P2", "PŘEDCHOZÍ"), "x")] }

/-- A world where page "A/B/C/D" has no TITUL, the nearest ancestor
"A/B/C" does not exist, and both "A/B" and "A" have knowledge-base
items (QAB resp. QA). -/
def siteC2w : CheckP1433.Site :=
  { pages := ["A/B/C/D", "A/B", "A"]
    redirects := []
    items := [("A/B/C/D", ⟨"QABCD", []⟩), ("A/B", ⟨"QAB", []⟩), ("A", ⟨"QA", []⟩)]
    params := []
    allpages := [] }

/-- A world with a single-segment page "A" without TITUL. -/
def siteC10w : CheckP1433.Site :=
  { pages := ["A"]
    redirects := []
    items := [("A", ⟨"QA", []⟩)]
    params := []
    allpages := [] }

/-- A harvest world whose page "P1" has an item with two P1433 claims
carrying distinct targets Q1 and Q2. -/
def siteC5w : HarvestPap1.Site :=
  { items := [("P1", ⟨"I1", [⟨some "Q1", []⟩, ⟨some "Q2", []⟩]⟩)]
    params := [(("P1", "PŘEDCHOZÍ"), "x")] }

/-! ### Helper lemmas -/

/-- A non-empty constant list has a single distinct element. -/
theorem uniqueIds_const (l : List String) (q : String) (hne : l ≠ [])
    (h : ∀ x ∈ l, x = q) : uniqueIds l = [q] := by
  induction l with
  | nil => exact absurd rfl hne
  | cons x xs ih =>
    cases xs with
    | nil =>
      have hx : x = q := h x (by simp)
      simp [uniqueIds, hx]
    | cons y ys =>
      have hx : x = q := h x (by simp)
      have hys : uniqueIds (y :: ys) = [q] :=
        ih (by simp) (fun z hz => h z (List.mem_cons_of_mem _ hz))
      rw [uniqueIds, hys, hx]
      simp [List.contains]

/-- When every claim targets `some q`, the target list has no `none`. -/
theorem contains_none_false (claims : List Claim) (q : String)
    (hall : ∀ c ∈ claims, c.target = some q) :
    (claims.map (fun c => c.target)).contains none = false := by
  rw [Bool.eq_false_iff]
  intro hc
  have hmem : (none : Option String) ∈ claims.map (fun c => c.target) := by
    simpa [List.contains, List.elem_iff] using hc
  obtain ⟨c, hcmem, hct⟩ := List.mem_map.mp hmem
  rw [hall c hcmem] at hct
  exact Option.noConfusion hct

/-- When every claim targets `some q`, keeping the item targets yields
the constant list of `q`. -/
theorem filterMap_const_targets (claims : List Claim) (q : String)
    (hall : ∀ c ∈ claims, c.target = some q) :
    List.filterMap (fun t => t) (claims.map (fun c => c.target)) =
      claims.map (fun _ => q) := by
  induction claims with
  | nil => rfl
  | cons c cs ih =>
    have hc : c.target = some q := hall c (by simp)
    simp [List.filterMap_cons, hc, ih (fun z hz => hall z (by simp [hz]))]

/-- Evaluation of `cleanup_p1433_duplicates` when every claim carries
the same item target `q`: no escalation, removal of the unqualified
claims exactly when there are several claims, at least one unqualified
one and the prompt is confirmed, and the first claim of the original
list returned. -/
theorem HarvestPap1.cleanup_same_target (c : Claim) (cs : List Claim)
    (q aO aR : String) (ay : Bool)
    (hall : ∀ x ∈ c :: cs, x.target = some q) :
    HarvestPap1.cleanup_p1433_duplicates (c :: cs) aO aR ay =
      .ok ⟨if (decide (1 < (c :: cs).length)
              && !((c :: cs).filter (fun x => !(HarvestPap1.has_qualifiers x))).isEmpty)
              && (aR == "y" || aR == "a")
           then (c :: cs).filter (fun x => !(HarvestPap1.has_qualifiers x)) else [],
        [], false,
        if decide (1 < (c :: cs).length)
            && !((c :: cs).filter (fun x => !(HarvestPap1.has_qualifiers x))).isEmpty
        then 1 else 0,
        ay || ((decide (1 < (c :: cs).length)
              && !((c :: cs).filter (fun x => !(HarvestPap1.has_qualifiers x))).isEmpty)
              && aR == "a"),
        some c⟩ := by
  have huni : uniqueIds (List.filterMap (fun t => t)
      ((c :: cs).map (fun x => x.target))) = [q] := by
    rw [filterMap_const_targets _ _ hall]
    apply uniqueIds_const
    · simp
    · intro z hz
      simp only [List.mem_map] at hz
      obtain ⟨_, _, hzq⟩ := hz
      exact hzq.symm
  have hcont := contains_none_false (c :: cs) q hall
  have hfilter : (c :: cs).filter (fun x => x.target == some q) = c :: cs := by
    rw [List.filter_eq_self]
    intro a ha
    exact beq_iff_eq.mpr (hall a ha)
  simp only [HarvestPap1.cleanup_p1433_duplicates, huni, hcont, hfilter]
  simp

/-- Evaluation of `cleanup_p1433_duplicates` on exactly two claims with
distinct item targets: no removal, one escalation report enumerating
both targets, the browser opened on answer "y", no surviving claim. -/
theorem cleanup_two_distinct (c1 c2 : Claim) (t1 t2 aO aR : String) (ay : Bool)
    (h1 : c1.target = some t1) (h2 : c2.target = some t2) (hne : t1 ≠ t2) :
    HarvestPap1.cleanup_p1433_duplicates [c1, c2] aO aR ay =
      .ok ⟨[], [[t1, t2]], aO == "y", 1, ay, none⟩ := by
  have huni : uniqueIds (List.filterMap (fun t => t)
      ([c1, c2].map (fun x => x.target))) = [t1, t2] := by
    simp [List.filterMap_cons, h1, h2, uniqueIds, List.contains, hne]
  have hcont : ([c1, c2].map (fun x => x.target)).contains none = false := by
    simp [List.contains, h1, h2]
  simp only [HarvestPap1.cleanup_p1433_duplicates, huni, hcont]
  simp [List.filterMap_cons, h1, h2]

/-- One step of the no-TITUL walk, phrased through `cand_has_item`. -/
theorem CheckP1433.notitle_loop_cons (s : Site) (ans : String) (ay : Bool)
    (c : String) (rest : List String) :
    notitle_loop s ans ay (c :: rest) =
      match cand_has_item s c with
      | none => notitle_loop s ans ay rest
      | some (cp, i) =>
        if (if ay then "y" else ans) == "y" || (if ay then "y" else ans) == "a" then
          ⟨[.addClaim i "Doplněno publikováno v (odhad hierarchie bez TITUL)"],
            if ay then 0 else 1, .foundNoTitle cp i,
            ay || ((if ay then "y" else ans) == "a")⟩
        else
          ⟨[], if ay then 0 else 1, .foundNoTitle cp i, ay⟩ := by
  rw [notitle_loop, cand_has_item]
  by_cases h : s.exists_ c
  · simp only [h, Bool.not_true, Bool.false_eq_true, if_false]
    cases hit : get_item_for_page s (if s.isRedirect c then s.redirectTarget c else c) <;>
      simp [hit]
  · simp [h]

/-! ### The claims -/

/-- C1: false as stated.  On `siteC1` the navigation template of page
"A/B" declares TITUL = "X" and the page "X" resolves directly to item
QX, yet the resolver never attempts it: `guess_base_title` ignores the
declared title, hierarchy guessing yields "A", and the proposed edit
targets QA, not QX. -/
theorem C1_titul_ignored_counterexample :
    CheckP1433.get_param siteC1 "A/B" "TITUL" = some "X" ∧
    CheckP1433.get_item_for_page siteC1 "X" = some ⟨"QX", []⟩ ∧
    CheckP1433.guess_base_title siteC1 "A/B" (some "X") = "A" ∧
    CheckP1433.process_page siteC1 "A/B" "y" "" false =
      .ok ⟨[.addClaim "QA" "Doplněno publikováno v (NavigacePaP)"], 1,
        .missingAdd "QA", false⟩ :=
  ⟨rfl, rfl, rfl, rfl⟩

/-- C3: the code violates idempotence.  On `siteC3` the page's item
already carries P1433 = QA (the result of a first run), yet a second
run of the no-TITUL add path issues another `addClaim` with the very
same target QA (silently, in apply-all mode) instead of detecting a
no-op. -/
theorem C3_second_run_adds_duplicate :
    CheckP1433.get_publication_item ⟨"QP", [⟨some "QA", []⟩]⟩ = some "QA" ∧
    CheckP1433.get_item_for_page siteC3 "A/B" = some ⟨"QP", [⟨some "QA", []⟩]⟩ ∧
    CheckP1433.process_page siteC3 "A/B" "y" "" true =
      .ok ⟨[.addClaim "QA" "Doplněno publikováno v (odhad hierarchie bez TITUL)"], 0,
        .foundNoTitle "A" "QA", true⟩ :=
  ⟨rfl, rfl, rfl⟩

/-- C6: the short-circuit to no-op never happens.  On `siteC6` the
multi-stage candidate "A/B/A" resolves to item Q9 and the page's item
already carries a P1433 claim with that same target Q9, but instead of
returning as a no-op the branch raises: the source compares against the
unbound local `cand_item` (the defined name is `candidate_item`), so
`process_page` crashes with an UnboundLocalError. -/
theorem C6_unbound_local_crash :
    CheckP1433.get_item_for_page siteC6 "A/B/A" = some ⟨"Q9", []⟩ ∧
    CheckP1433.get_publication_item ⟨"QP", [⟨some "Q9", []⟩]⟩ = some "Q9" ∧
    CheckP1433.process_page siteC6 "A/B/C" "y" "" false = .error .unboundLocal :=
  ⟨rfl, rfl, rfl⟩

/-- C10: false as stated.  On `siteC10` the page "A" has a one-segment
path, yet the TITUL-policy resolver does produce a resolved target:
`guess_base_title` returns the page's own title "A", and the page's own
item QA is proposed as the published-in target of itself. -/
theorem C10_own_title_counterexample :
    splitSlash "A" = ["A"] ∧
    CheckP1433.guess_base_title siteC10 "A" (some "X") = "A" ∧
    CheckP1433.process_page siteC10 "A" "y" "" false =
      .ok ⟨[.addClaim "QA" "Doplněno publikováno v (NavigacePaP)"], 1,
        .missingAdd "QA", false⟩ :=
  ⟨rfl, rfl, rfl⟩

/-- C4: false as stated.  With two unqualified claims sharing target
Q1, a confirmed dedup removes both of them: no claim for the target
survives, so an unqualified claim is removed even though no other claim
remains. -/
theorem C4_last_claim_removed_counterexample :
    HarvestPap1.cleanup_p1433_duplicates
        [⟨some "Q1", []⟩, ⟨some "Q1", []⟩] "" "y" false =
      .ok ⟨[⟨some "Q1", []⟩, ⟨some "Q1", []⟩], [], false, 1, false,
        some ⟨some "Q1", []⟩⟩ ∧
    ([⟨some "Q1", []⟩, ⟨some "Q1", []⟩] : List Claim).filter
        (fun c => !([⟨some "Q1", []⟩, ⟨some "Q1", []⟩] : List Claim).contains c)
      = [] :=
  ⟨rfl, rfl⟩

/-- C7: false as stated.  With an unqualified claim `c1` first in the
list and a qualified claim `c2` with the same target Q1, a confirmed
dedup removes `c1` yet returns `c1` — a removed, unqualified claim — as
the representative for downstream qualifier attachment, even though the
qualified claim `c2` survives. -/
theorem C7_removed_survivor_counterexample :
    HarvestPap1.cleanup_p1433_duplicates
        [⟨some "Q1", []⟩, ⟨some "Q1", [("P155", "Q5")]⟩] "" "y" false =
      .ok ⟨[⟨some "Q1", []⟩], [], false, 1, false, some ⟨some "Q1", []⟩⟩ ∧
    HarvestPap1.has_qualifiers ⟨some "Q1", [("P155", "Q5")]⟩ = true ∧
    HarvestPap1.has_qualifiers ⟨some "Q1", []⟩ = false :=
  ⟨rfl, rfl, rfl⟩

/-- C8: the apply-all answer does not suppress later prompts in
harvest_pap1.py.  On `siteC8`, answering "a" to page P1's removal
prompt sets the `always_yes` global for the rest of the run (it is
never reset), yet processing page P2 — with `always_yes` already true —
issues the removal `input()` prompt again: the global is written but
never consulted. -/
theorem C8_prompt_after_apply_all :
    HarvestPap1.harvest_run siteC8 [("P1", "", "a"), ("P2", "", "n")] false =
      ([.ok ⟨[.removeClaim ⟨some "Q1", []⟩, .removeClaim ⟨some "Q1", []⟩],
          [], false, 1, true⟩,
        .ok ⟨[], [], false, 1, true⟩], true) :=
  rfl

/-- C1 amended: when a navigation template declares a TITUL, the
resolver ignores the declared title — `guess_base_title`'s result does
not depend on it — and instead attempts to resolve the hierarchy-guessed
base title's page directly to a knowledge-base item; when that
succeeds and the page's item has no P1433 claim yet, the direct result
drives the proposed edit. -/
theorem C1_resolver_ignores_titul (s : CheckP1433.Site) (title tp ans choice : String)
    (item e : Item)
    (hItem : CheckP1433.get_item_for_page s title = some item)
    (hTp : CheckP1433.get_param s title "TITUL" = some tp)
    (hTpNe : tp ≠ "")
    (hBase : CheckP1433.get_item_for_page s
      (CheckP1433.guess_base_title s title (some tp)) = some e)
    (hCur : item.p1433 = []) :
    CheckP1433.process_page s title ans choice false =
      (if ans == "y" || ans == "a" then
        .ok ⟨[.addClaim e.id "Doplněno publikováno v (NavigacePaP)"], 1,
          .missingAdd e.id, ans == "a"⟩
      else .ok ⟨[], 1, .missingAdd e.id, false⟩) ∧
    CheckP1433.guess_base_title s title (some tp) =
      CheckP1433.guess_base_title s title none := by
  refine ⟨?_, rfl⟩
  have hTruthy : pyTruthy (some tp) = true := by simp [pyTruthy, hTpNe]
  have hgpi : CheckP1433.get_publication_item item = none := by
    simp [CheckP1433.get_publication_item, hCur]
  simp only [CheckP1433.process_page, hItem, hTp, hTruthy, hBase, hgpi]
  rfl

/-- Witness for C1: on `siteC1` the theorem instantiates to the run
that resolves the hierarchy guess "A" directly to QA. -/
theorem C1_resolver_ignores_titul_witness :
    CheckP1433.process_page siteC1 "A/B" "y" "" false =
      .ok ⟨[.addClaim "QA" "Doplněno publikováno v (NavigacePaP)"], 1,
        .missingAdd "QA", false⟩ ∧
    CheckP1433.guess_base_title siteC1 "A/B" (some "X") =
      CheckP1433.guess_base_title siteC1 "A/B" none :=
  C1_resolver_ignores_titul siteC1 "A/B" "X" "y" "" ⟨"QAB", []⟩ ⟨"QA", []⟩
    rfl rfl (by decide) rfl rfl

/-- C2: in the no-TITUL policy, processing the page "A/B/C/D" walks the
ancestor prefixes nearest-to-farthest; when "A/B/C" does not exist or
has no item, and "A/B" (after redirect resolution to `rb`) has item
`ib`, the resolver takes `ib` — "A/B"'s item and never "A"'s, even
though "A" has an item too. -/
theorem C2_ancestor_first_match (s : CheckP1433.Site) (item itemA : Item)
    (rb ib ra : String)
    (hItem : CheckP1433.get_item_for_page s "A/B/C/D" = some item)
    (hTitul : pyTruthy (CheckP1433.get_param s "A/B/C/D" "TITUL") = false)
    (hC : CheckP1433.cand_has_item s "A/B/C" = none)
    (hB : CheckP1433.cand_has_item s "A/B" = some (rb, ib))
    (_hA : CheckP1433.cand_has_item s "A" = some (ra, itemA.id)) :
    CheckP1433.process_page s "A/B/C/D" "y" "" false =
      .ok ⟨[.addClaim ib "Doplněno publikováno v (odhad hierarchie bez TITUL)"], 1,
        .foundNoTitle rb ib, false⟩ := by
  simp only [CheckP1433.process_page, hItem, hTitul]
  show Except.ok (CheckP1433.notitle_loop s "y" false ["A/B/C", "A/B", "A"]) = _
  simp only [CheckP1433.notitle_loop_cons, hC, hB]
  rfl

/-- Witness for C2: on `siteC2w`, "A/B/C" does not exist and "A/B"'s
item QAB is adopted, not "A"'s QA. -/
theorem C2_ancestor_first_match_witness :
    CheckP1433.process_page siteC2w "A/B/C/D" "y" "" false =
      .ok ⟨[.addClaim "QAB" "Doplněno publikováno v (odhad hierarchie bez TITUL)"], 1,
        .foundNoTitle "A/B" "QAB", false⟩ :=
  C2_ancestor_first_match siteC2w ⟨"QABCD", []⟩ ⟨"QA", []⟩ "A/B" "QAB" "A"
    rfl rfl rfl rfl rfl

/-- C4 amended: when all claims share one target and there are several
of them with at least one unqualified, a confirmed dedup removes every
unqualified claim — even when that leaves no claim for the target —
while every claim carrying a qualifier survives. -/
theorem C4_removes_all_unqualified (claims : List Claim) (q aO : String) (ay : Bool)
    (hne : claims ≠ [])
    (hall : ∀ c ∈ claims, c.target = some q)
    (hlen : 1 < claims.length)
    (hnq : claims.filter (fun c => !(HarvestPap1.has_qualifiers c)) ≠ []) :
    ∃ r, HarvestPap1.cleanup_p1433_duplicates claims aO "y" ay = .ok r ∧
      r.removed = claims.filter (fun c => !(HarvestPap1.has_qualifiers c)) ∧
      ∀ c ∈ claims, HarvestPap1.has_qualifiers c → c ∉ r.removed := by
  obtain ⟨c, cs, rfl⟩ := List.exists_cons_of_ne_nil hne
  rw [HarvestPap1.cleanup_same_target c cs q aO "y" ay hall]
  have hcond : (decide (1 < (c :: cs).length)
      && !((c :: cs).filter (fun x => !(HarvestPap1.has_qualifiers x))).isEmpty) = true := by
    have h1 : (decide (1 < (c :: cs).length)) = true := decide_eq_true hlen
    have h2 : ((c :: cs).filter (fun x => !(HarvestPap1.has_qualifiers x))).isEmpty = false := by
      rw [Bool.eq_false_iff]
      intro htrue
      exact hnq (List.isEmpty_iff.mp htrue)
    rw [h1, h2]
    rfl
  refine ⟨_, rfl, ?_, ?_⟩
  · simp only [hcond]
    rfl
  · intro x hx hq
    simp only [hcond]
    intro hmem
    have hmem2 : x ∈ (c :: cs).filter (fun y => !(HarvestPap1.has_qualifiers y)) := hmem
    rw [List.mem_filter] at hmem2
    rw [hq] at hmem2
    simp at hmem2

/-- Witness for C4: three claims with target Q1, the middle one
qualified — the dedup removes exactly the two unqualified ones and the
qualified one survives. -/
theorem C4_removes_all_unqualified_witness :
    ∃ r, HarvestPap1.cleanup_p1433_duplicates
        [⟨some "Q1", []⟩, ⟨some "Q1", [("P155", "Q5")]⟩, ⟨some "Q1", []⟩]
        "" "y" false = .ok r ∧
      r.removed = ([⟨some "Q1", []⟩, ⟨some "Q1", [("P155", "Q5")]⟩,
          ⟨some "Q1", []⟩] : List Claim).filter
        (fun c => !(HarvestPap1.has_qualifiers c)) ∧
      ∀ c ∈ ([⟨some "Q1", []⟩, ⟨some "Q1", [("P155", "Q5")]⟩,
          ⟨some "Q1", []⟩] : List Claim),
        HarvestPap1.has_qualifiers c → c ∉ r.removed :=
  C4_removes_all_unqualified
    [⟨some "Q1", []⟩, ⟨some "Q1", [("P155", "Q5")]⟩, ⟨some "Q1", []⟩]
    "Q1" "" false (by decide) (by decide) (by decide) (by decide)

/-- C5: on an item carrying exactly two P1433 claims with distinct
targets, the harvest reconciler performs zero mutations (no removal, no
qualifier addition) and produces exactly one escalation report
enumerating both targets, offering to open the item externally (opened
exactly on answer "y"). -/
theorem C5_ambiguity_escalation (s : HarvestPap1.Site) (title : String)
    (item : Item) (c1 c2 : Claim) (t1 t2 pv aO aR : String) (ay : Bool)
    (hItem : HarvestPap1.get_item_for_page s title = some item)
    (hPrev : HarvestPap1.get_param_from_template s title "PŘEDCHOZÍ" = some pv)
    (hPv : pv ≠ "")
    (hclaims : item.p1433 = [c1, c2])
    (h1 : c1.target = some t1) (h2 : c2.target = some t2) (hne : t1 ≠ t2) :
    HarvestPap1.process_page s title aO aR ay =
      .ok ⟨[], [[t1, t2]], aO == "y", 1, ay⟩ := by
  have hTruthy : pyTruthy (some pv) = true := by simp [pyTruthy, hPv]
  simp only [HarvestPap1.process_page, hItem, hPrev, hTruthy, Bool.true_or,
    Bool.not_true, HarvestPap1.get_p1433_claims, hclaims,
    cleanup_two_distinct c1 c2 t1 t2 aO aR ay h1 h2 hne]
  rfl

/-- Witness for C5: on `siteC5w` the two targets Q1 and Q2 are
escalated and nothing is mutated. -/
theorem C5_ambiguity_escalation_witness :
    HarvestPap1.process_page siteC5w "P1" "y" "n" false =
      .ok ⟨[], [["Q1", "Q2"]], "y" == "y", 1, false⟩ :=
  C5_ambiguity_escalation siteC5w "P1" ⟨"I1", [⟨some "Q1", []⟩, ⟨some "Q2", []⟩]⟩
    ⟨some "Q1", []⟩ ⟨some "Q2", []⟩ "Q1" "Q2" "x" "y" "n" false
    rfl rfl (by decide) rfl rfl rfl (by decide)

/-- C7 amended: when all claims share one target, the representative
returned for downstream qualifier attachment is always the first claim
of the original list — independent of the removals performed and of
which claims are qualified, so possibly a removed, unqualified claim. -/
theorem C7_survivor_is_first_claim (claims : List Claim) (q aO aR : String)
    (ay : Bool) (hne : claims ≠ [])
    (hall : ∀ c ∈ claims, c.target = some q) :
    ∃ r, HarvestPap1.cleanup_p1433_duplicates claims aO aR ay = .ok r ∧
      r.survivor = claims.head? := by
  obtain ⟨c, cs, rfl⟩ := List.exists_cons_of_ne_nil hne
  rw [HarvestPap1.cleanup_same_target c cs q aO aR ay hall]
  exact ⟨_, rfl, rfl⟩

/-- Witness for C7: with an unqualified first claim and a qualified
second one, the returned representative is the first (unqualified)
claim. -/
theorem C7_survivor_is_first_claim_witness :
    ∃ r, HarvestPap1.cleanup_p1433_duplicates
        [⟨some "Q1", []⟩, ⟨some "Q1", [("P155", "Q5")]⟩] "" "y" false = .ok r ∧
      r.survivor = ([⟨some "Q1", []⟩,
        ⟨some "Q1", [("P155", "Q5")]⟩] : List Claim).head? :=
  C7_survivor_is_first_claim [⟨some "Q1", []⟩, ⟨some "Q1", [("P155", "Q5")]⟩]
    "Q1" "" "y" false (by decide) (by decide)

/-- C9: attaching a previous-part (or next-part) qualifier whose target
already appears among the claim's qualifiers for the same role property
is a no-op — no qualifier mutation is issued. -/
theorem C9_qualifier_noop (prop t : String) (jc : Claim)
    (h : (prop, t) ∈ jc.qualifiers) :
    HarvestPap1.add_statement_with_qualifier prop (some t) (some jc) = none := by
  have hmem : t ∈ qualifiersGet jc.qualifiers prop := by
    simp only [qualifiersGet, List.mem_map, List.mem_filter]
    exact ⟨(prop, t), ⟨h, by simp⟩, rfl⟩
  have hc : (qualifiersGet jc.qualifiers prop).contains t = true :=
    List.elem_iff.mpr hmem
  simp [HarvestPap1.add_statement_with_qualifier, hc, hmem]

/-- Witness for C9: re-attaching the already-present previous-part
qualifier Q20 is a no-op. -/
theorem C9_qualifier_noop_witness :
    HarvestPap1.add_statement_with_qualifier "P155" (some "Q20")
      (some ⟨some "Q1", [("P155", "Q20")]⟩) = none :=
  C9_qualifier_noop "P155" "Q20" ⟨some "Q1", [("P155", "Q20")]⟩ (by decide)

/-- C10 amended: a page whose path has exactly one segment is skipped
by the no-TITUL policy with the distinct "no ancestor" outcome and no
mutation; but the TITUL policy's `guess_base_title` returns the page's
own title, so the page's own item can be proposed as the published-in
target. -/
theorem C10_one_segment (s : CheckP1433.Site) (title ans choice tp : String)
    (item : Item)
    (hOne : splitSlash title = [title])
    (hItem : CheckP1433.get_item_for_page s title = some item) :
    (pyTruthy (CheckP1433.get_param s title "TITUL") = false →
      CheckP1433.process_page s title ans choice false =
        .ok ⟨[], 0, .noAncestor, false⟩) ∧
    CheckP1433.guess_base_title s title (some tp) = title := by
  constructor
  · intro h
    simp only [CheckP1433.process_page, hItem, h, hOne]
    rfl
  · simp only [CheckP1433.guess_base_title, hOne]
    rfl

/-- Witness for C10: on `siteC10w` (one-segment page "A", no TITUL) the
page is skipped with "no ancestor"; the TITUL-policy base-title guess
is the page's own title "A". -/
theorem C10_one_segment_witness :
    (pyTruthy (CheckP1433.get_param siteC10w "A" "TITUL") = false →
      CheckP1433.process_page siteC10w "A" "y" "" false =
        .ok ⟨[], 0, .noAncestor, false⟩) ∧
    CheckP1433.guess_base_title siteC10w "A" (some "X") = "A" :=
  C10_one_segment siteC10w "A" "y" "" "X" ⟨"QA", []⟩ rfl rfl
